/-
Verification of the loader-resolution and installation logic of
`auto_mc_server.py` (ams-py).  The Python functions are shallowly embedded
as executable Lean definitions; stateful effects (working directory,
subprocess retry loops, file rewrites) are made explicit.
-/
import Mathlib

namespace AmsPy

/-! ## Python string primitives

The Python string operations used by the version-selection code, embedded
structurally over the character list of the string so that every
definition evaluates by kernel reduction. -/

/-- `s.split('.')` on the character list: split at every `'.'`, keeping
empty pieces, so that `''.split('.') == ['']` and
`'1..2'.split('.') == ['1', '', '2']`. -/
def splitDotAux : List Char → List Char → List (List Char)
  | [], acc => [acc.reverse]
  | c :: cs, acc =>
    if c = '.' then acc.reverse :: splitDotAux cs []
    else splitDotAux cs (c :: acc)

/-- Python `s.split('.')`. -/
def pySplitDot (s : String) : List String :=
  (splitDotAux s.data []).map fun l => String.mk l

/-- The decimal value of a nonempty all-digit character list; `none`
otherwise. -/
def decDigits? (cs : List Char) : Option Nat :=
  if cs ≠ [] ∧ cs.all Char.isDigit then
    some (cs.foldl (fun n c => n * 10 + (c.toNat - '0'.toNat)) 0)
  else none

/-- Models CPython `int(s)` restricted to the ASCII forms that version
components can take: an optional sign followed by decimal digits.
(Whitespace, underscore separators and non-ASCII digits are accepted by
CPython but are never produced by the inputs analysed here.)
`none` models a raised `ValueError`. -/
def pyInt (s : String) : Option Int :=
  match s.data with
  | '-' :: rest => (decDigits? rest).map fun n => -(n : Int)
  | '+' :: rest => (decDigits? rest).map fun n => (n : Int)
  | cs => (decDigits? cs).map fun n => (n : Int)

/-- The first character of a string, if any. -/
def firstChar? (s : String) : Option Char := s.data.head?

/-! ## `vanilla_loader`: the pre-network phase (lines 192–231)

```python
minecraft = input().strip()
tmp = minecraft.split('.')
major, minor = int(tmp[1]), int(tmp[2]) if len(tmp) == 3 else 0
is_invalid = major < 2 or (major == 2 and minor < 5)
if is_invalid:
    logger.warning(...); return sys.exit(1)
if re.match(r'[\d.]', minecraft) or not minecraft:
    ... network: manifest fetch, selection, download ...
else:
    logger.warning('Version provided contain invalid characters')
```

The outcome of this phase, for a given (already stripped) input string: -/
inductive VanillaOutcome
  /-- An uncaught `IndexError`/`ValueError` escapes from the
      `major, minor = ...` assignment. -/
  | exn
  /-- `is_invalid` is true: warn and `sys.exit(1)` (before any network). -/
  | unsupportedExit
  /-- validation passed: the loop body continues into the manifest fetch. -/
  | proceed
  /-- `re.match` failed: warn about invalid characters and re-prompt. -/
  | invalidWarn
deriving DecidableEq, Repr

/-- `re.match(r'[\d.]', s)` is truthy iff the FIRST character of `s` is a
digit or a dot (the pattern is unanchored at the end and has no `+`). -/
def reMatchDigitDot (s : String) : Bool :=
  match firstChar? s with
  | none => false
  | some c => c.isDigit || c = '.'

/-- The pre-network phase of `vanilla_loader`, as written in the source. -/
def vanillaPreNetwork (minecraft : String) : VanillaOutcome :=
  let tmp := pySplitDot minecraft
  match tmp.get? 1 with
  | none => .exn                    -- IndexError at int(tmp[1])
  | some t1 =>
    match pyInt t1 with
    | none => .exn                  -- ValueError at int(tmp[1])
    | some major =>
      let minor? : Option Int :=
        if tmp.length = 3 then pyInt (tmp.getD 2 "") else some 0
      match minor? with
      | none => .exn                -- ValueError at int(tmp[2])
      | some minor =>
        if major < 2 ∨ (major = 2 ∧ minor < 5) then .unsupportedExit
        else if reMatchDigitDot minecraft || minecraft = "" then .proceed
        else .invalidWarn

/-- The validation pattern as the spec words it: the WHOLE string matches
`^[0-9.]+$`.  (Spec-side definition, for comparison with the code.) -/
def specFullMatchDigitsDots (s : String) : Bool :=
  s.data ≠ [] && s.data.all (fun c => c.isDigit || c = '.')

/-! `fabric_loader` validation (lines 251–256):
`minecraft and bool(re.match(r'[^\d.]', minecraft))` warns and re-prompts;
the pattern is truthy iff the FIRST character is outside `[\d.]`. -/

/-- `True` iff `fabric_loader` accepts the (stripped) version string and
falls through to the installer invocation. -/
def fabricAccepts (s : String) : Bool :=
  match firstChar? s with
  | none => true                     -- empty string is falsy: accepted
  | some c => c.isDigit || c = '.'   -- re.match looks at the first char only

/-! ## `get_last_release` / empty-request resolution (lines 177–183, 210–211)

```python
if not minecraft:
    minecraft = get_last_release()   # manifest['latest']['release']
```
-/

structure Manifest where
  latestRelease : String
  deriving Repr, DecidableEq

/-- The resolution step at lines 210–211 of `vanilla_loader`, reached only
after validation: an empty request is replaced by the manifest's
`latest.release`. -/
def vanillaResolveRequest (minecraft : String) (m : Manifest) : String :=
  if minecraft = "" then m.latestRelease else minecraft

/-! ## Version ordering (spec side)

Lexicographic order on dotted triples, to state "below 1.2.5". -/
def versionLt (a b : Int × Int × Int) : Bool :=
  a.1 < b.1 ∨ (a.1 = b.1 ∧ (a.2.1 < b.2.1 ∨ (a.2.1 = b.2.1 ∧ a.2.2 < b.2.2)))

/-! ## The manifest scan of `vanilla_loader` (lines 209–216)

```python
url: str = ''
for i in range(len(versions_json)):
    if versions_json[i]['id'] == minecraft:
        url = versions_json[i]['url']
        break
with urlopen(url) as response: ...
```
-/

/-- One entry of the version manifest's `versions` list. -/
structure VEntry where
  id  : String
  url : String
  deriving Repr, DecidableEq

/-- The scan loop: `url` is the `url` of the first entry whose `id` equals
the requested version, and stays `''` when no entry matches. -/
def findVersionUrl : List VEntry → String → String
  | [], _ => ""
  | e :: es, mc => if e.id = mc then e.url else findVersionUrl es mc

/-- The selection step as a whole: after the scan, `urlopen(url)` is called;
`urlopen('')` raises an uncaught `ValueError` (no entry matched), so the run
fails — the spec's `VersionNotFoundError`.  There is no closest-version
fallback anywhere in the loop. -/
def vanillaLookup (versions : List VEntry) (mc : String) : Except Unit String :=
  let url := findVersionUrl versions mc
  if url = "" then .error () else .ok url

/-! ## Dispatch: `loader_setup` (lines 366–383) and `server_loader` (503–529) -/

/-- The four acquisition strategies that exist in the code. -/
inductive Strategy
  | vanilla | fabric | quilt | carpet112
deriving DecidableEq, Repr

/-- The loader kinds named by the specification's closed enumeration. -/
inductive LoaderKind
  | vanilla | fabric | forge | quilt | carpet112 | paper
deriving DecidableEq, Repr

/-- Which spec-level kind each implemented strategy serves. -/
def kindOf : Strategy → LoaderKind
  | .vanilla => .vanilla
  | .fabric => .fabric
  | .quilt => .quilt
  | .carpet112 => .carpet112

/-- `loader_setup`: `match loader: case 1..4` runs the strategy; any other
value logs `Invalid loader option` and does `sys.exit(1)` (`.error ()`). -/
def loader_setup (loader : Int) : Except Unit Strategy :=
  if loader = 1 then .ok .vanilla
  else if loader = 2 then .ok .fabric
  else if loader = 3 then .ok .quilt
  else if loader = 4 then .ok .carpet112
  else .error ()

/-- Result of one round of the `server_loader` menu. -/
inductive MenuResult
  | choice (n : Int)
  /-- `case '5' | 'exit'`: `sys.exit(0)`. -/
  | exitScript
  /-- anything else: warn `Input is not within the options` and re-prompt. -/
  | invalid
deriving DecidableEq, Repr

/-- The `server_loader` menu match on the lowercased, stripped input. -/
def serverLoaderOption (s : String) : MenuResult :=
  if s = "1" ∨ s = "vanilla" then .choice 1
  else if s = "2" ∨ s = "fabric" then .choice 2
  else if s = "3" ∨ s = "quilt" then .choice 3
  else if s = "4" ∨ s = "carpet112" then .choice 4
  else if s = "5" ∨ s = "exit" then .exitScript
  else .invalid

/-! ## Error propagation: `subprocess_logger` (lines 87–91) and the Quilt
install loop (lines 313–318)

```python
process.wait()
if process.returncode != 0 and exit_in_error:
    logger.error(...); return sys.exit(1)
```

```python
while True:
    subprocess_logger(['java', '-jar', installer, 'install', 'server', minecraft, '--download-server'])
    if os.path.isfile(r'./server/server.jar'):
        break
    logger.warning('Server.jar not found, re-installing Quilt loader...')
```
-/

/-- `subprocess_logger`'s exit policy: a nonzero return code with
`exit_in_error` terminates the run (`sys.exit(1)`), else it returns `0`. -/
def subprocessOutcome (returncode : Int) (exit_in_error : Bool) : Except Unit Nat :=
  if returncode ≠ 0 ∧ exit_in_error then .error () else .ok 0

/-- The Quilt install loop, driven by the sequence of
`os.path.isfile('./server/server.jar')` observations after each installer
run: returns the number of installer invocations performed until the file
first exists (`none` if it never does within the observed sequence). -/
def quiltInstallAttempts : List Bool → Option Nat
  | [] => none
  | b :: bs => if b then some 1 else (quiltInstallAttempts bs).map (· + 1)

/-! ## Config patching (lines 419–432, 473–495)

Every patch in the code has the shape: `readlines`, assign
`data[i] = newline`, `writelines`.  Python raises `IndexError` when
`i >= len(data)` (failed application). -/

structure PatchSpec where
  idx : Nat
  newLine : String
  deriving Repr, DecidableEq

/-- `data = f.readlines(); data[i] = v; f.writelines(data)` on the list of
lines; `none` models the `IndexError` on a too-short file. -/
def applyPatch (p : PatchSpec) (lines : List String) : Option (List String) :=
  if p.idx < lines.length then some (lines.set p.idx p.newLine) else none

/-- `writelines` output: the file's byte content is the concatenation. -/
def writeLines (lines : List String) : String := String.join lines

/-- `start_command` (lines 439–445). -/
def start_command (jar_name : String) : String :=
  "java -Xms1G -Xmx2G -jar " ++ jar_name ++ ".jar nogui"

/-- `mcdr_setup` line 421: `data[19] = f'start_command: {start_command(jar_name)}\n'`. -/
def startCommandPatch (jar_name : String) : PatchSpec :=
  ⟨19, "start_command: " ++ start_command jar_name ++ "\n"⟩

/-- `mcdr_setup` line 430: `data[13] = f'- {nickname}\n'`. -/
def ownerPatch (nickname : String) : PatchSpec :=
  ⟨13, "- " ++ nickname ++ "\n"⟩

/-- `post_setup` lines 475/487: `data[77] = 'disable_console_thread: ...'`. -/
def consoleThreadPatch (disable : Bool) : PatchSpec :=
  ⟨77, if disable then "disable_console_thread: true\n"
       else "disable_console_thread: false\n"⟩

/-- `post_setup` line 493: `data[2] = 'eula=true\n'`. -/
def eulaPatch : PatchSpec :=
  ⟨2, "eula=true\n"⟩

/-! ## `fabric_loader` installer invocation (lines 239, 262–278) -/

def FABRIC_URL : String :=
  "https://maven.fabricmc.net/net/fabricmc/fabric-installer/0.11.0/fabric-installer-0.11.0.jar"

/-- `installer = str(list(FABRIC_URL.split('/'))[7])`. -/
def fabricInstaller : String := (FABRIC_URL.splitOn "/").getD 7 ""

/-- The `if/elif` chain choosing the installer's argument vector (emptiness
of a Python string is its truthiness). -/
def fabricArgs (minecraft fabric_version : String) : List String :=
  if minecraft = "" ∧ fabric_version = "" then
    ["java", "-jar", fabricInstaller, "server", "-downloadMinecraft"]
  else if minecraft ≠ "" ∧ fabric_version = "" then
    ["java", "-jar", fabricInstaller, "server", "-mcversion", minecraft,
     "-downloadMinecraft"]
  else if minecraft = "" ∧ fabric_version ≠ "" then
    ["java", "-jar", fabricInstaller, "server", "-loader", fabric_version,
     "-downloadMinecraft"]
  else
    ["java", "-jar", fabricInstaller, "server", "-mcversion", minecraft,
     "-loader", fabric_version, "-downloadMinecraft"]

/-- What the successful tail of `fabric_loader` does: one installer
invocation, `os.remove(installer)`, and `return 'fabric-server-launch'`. -/
structure FabricRun where
  args : List String
  deletedFiles : List String
  artifact : String
  deriving Repr, DecidableEq

def fabric_loader (minecraft fabric_version : String) : FabricRun :=
  { args := fabricArgs minecraft fabric_version
    deletedFiles := [fabricInstaller]
    artifact := "fabric-server-launch" }

/-! ## Working-directory effects of the strategies

The process working directory as a stack of path components; `chdir('..')`
drops the last component, `chdir(name)` pushes one. -/
abbrev Dir := List String

def chdirUp (d : Dir) : Dir := d.dropLast

def chdirInto (d : Dir) (name : String) : Dir := d ++ [name]

/-- `vanilla_loader` performs no `chdir`. -/
def vanillaDirEffect (d : Dir) : Dir := d

/-- `fabric_loader` performs no `chdir`. -/
def fabricDirEffect (d : Dir) : Dir := d

/-- `quilt_loader` (lines 296, 321): `os.chdir('..')` on entry, work in the
parent, `os.chdir('server')` before returning. -/
def quiltDirEffect (d : Dir) : Dir := chdirInto (chdirUp d) "server"

/-- `carpet112_setup` (lines 346, 352): `os.chdir('update')` then
`os.chdir('..')` before returning. -/
def carpetDirEffect (d : Dir) : Dir := chdirUp (chdirInto d "update")

/-! ## Theorems -/

/-- C1: the claim says a version string proceeds to index lookup iff it
matches `^[0-9.]+$` as a whole, and everything else fails before any
network call.  The code's checks (`re.match(r'[\d.]', v)` in
`vanilla_loader`, `re.match(r'[^\d.]', v)` in `fabric_loader`) inspect
only the first character, so `"1.5.0.x"` (vanilla) and `"1abc"` (fabric)
proceed to the network phase although they contain characters outside
`[0-9.]`. -/
theorem c1_validation_checks_only_first_char :
    vanillaPreNetwork "1.5.0.x" = VanillaOutcome.proceed ∧
    specFullMatchDigitsDots "1.5.0.x" = false ∧
    fabricAccepts "1abc" = true ∧
    specFullMatchDigitsDots "1abc" = false := by
  decide

/-- C3: an empty Vanilla version request never reaches the
`latest.release` resolution: `int(tmp[1])` raises an uncaught `IndexError`
on `''.split('.') == ['']` first.  The resolution code at lines 210–211
(`if not minecraft: minecraft = get_last_release()`) would indeed return
the manifest's `latest.release`, but it is unreachable for the empty
request. -/
theorem c3_empty_request_crashes_before_latest_release :
    vanillaPreNetwork "" = VanillaOutcome.exn ∧
    VanillaOutcome.exn ≠ VanillaOutcome.proceed ∧
    ∀ m : Manifest, vanillaResolveRequest "" m = m.latestRelease := by
  exact ⟨by decide, by decide, fun m => rfl⟩

/-- C10: any request whose `split('.')` has fewer than two components —
the empty string and every string without a dot — makes
`major, minor = int(tmp[1]), ...` raise an uncaught exception, before the
invalid-character branch and before any network call; the
invalid-character warning is unreachable for such inputs. -/
theorem c10_short_request_raises_before_validation (s : String)
    (h : (pySplitDot s).length < 2) :
    vanillaPreNetwork s = VanillaOutcome.exn ∧
    VanillaOutcome.exn ≠ VanillaOutcome.invalidWarn ∧
    VanillaOutcome.exn ≠ VanillaOutcome.unsupportedExit ∧
    VanillaOutcome.exn ≠ VanillaOutcome.proceed := by
  refine ⟨?_, by decide, by decide, by decide⟩
  have hnone : (pySplitDot s).get? 1 = none := by
    rw [List.get?_eq_none]
    omega
  unfold vanillaPreNetwork
  simp only [hnone]

/-- Concrete instance of C10 at the dot-free request `"abc"`. -/
theorem c10_witness :
    (pySplitDot "abc").length < 2 ∧
    vanillaPreNetwork "abc" = VanillaOutcome.exn :=
  ⟨by decide, (c10_short_request_raises_before_validation "abc" (by decide)).1⟩

/-- C2: for a request of the form `1.M` or `1.M.N` (all Minecraft release
versions have this shape), the code's check `major < 2 or (major == 2 and
minor < 5)` rejects, with `sys.exit(1)` and before any network call,
exactly the versions lexicographically below `1.2.5`; at or above `1.2.5`
it passes and the loop body continues into the manifest lookup. -/
theorem c2_minimum_version_is_1_2_5 (s a b : String) (M N : Int)
    (hfront : firstChar? s = some '1')
    (hparts : (pySplitDot s = ["1", a, b] ∧ pyInt a = some M ∧ pyInt b = some N) ∨
              (pySplitDot s = ["1", a] ∧ pyInt a = some M ∧ N = 0)) :
    (versionLt (1, M, N) (1, 2, 5) = true →
        vanillaPreNetwork s = VanillaOutcome.unsupportedExit) ∧
    (versionLt (1, M, N) (1, 2, 5) = false →
        vanillaPreNetwork s = VanillaOutcome.proceed) := by
  have hre : reMatchDigitDot s = true := by
    simp [reMatchDigitDot, hfront]
  have hlt : versionLt (1, M, N) (1, 2, 5) = true ↔ (M < 2 ∨ (M = 2 ∧ N < 5)) := by
    simp [versionLt]
  constructor
  · intro hv
    have hcond : M < 2 ∨ (M = 2 ∧ N < 5) := hlt.mp hv
    rcases hparts with ⟨hsp, ha, hb⟩ | ⟨hsp, ha, hb⟩
    · simp [vanillaPreNetwork, hsp, ha, hb, hcond]
    · subst hb
      simp only [vanillaPreNetwork, hsp]
      simp [ha]
      intro h1 h2
      exfalso
      rcases hcond with h | ⟨h, _⟩ <;> omega
  · intro hv
    have hcond : ¬(M < 2 ∨ (M = 2 ∧ N < 5)) := by
      intro hc
      rw [hlt.mpr hc] at hv
      simp at hv
    rcases hparts with ⟨hsp, ha, hb⟩ | ⟨hsp, ha, hb⟩
    · simp [vanillaPreNetwork, hsp, ha, hb, hcond, hre]
    · subst hb
      simp [vanillaPreNetwork, hsp, ha, hcond, hre]
      omega

/-- Concrete instances of C2: `"1.1"` exits before any network call,
`"1.20.4"` passes the check and proceeds to the manifest lookup. -/
theorem c2_witness :
    vanillaPreNetwork "1.1" = VanillaOutcome.unsupportedExit ∧
    vanillaPreNetwork "1.20.4" = VanillaOutcome.proceed := by
  constructor
  · exact (c2_minimum_version_is_1_2_5 "1.1" "1" "" 1 0 (by decide)
      (Or.inr ⟨by decide, by decide, rfl⟩)).1 (by decide)
  · exact (c2_minimum_version_is_1_2_5 "1.20.4" "20" "4" 20 4 (by decide)
      (Or.inl ⟨by decide, by decide, by decide⟩)).2 (by decide)

/-- Helper for C4: when no manifest entry's id matches, the scan leaves
`url` at `''`. -/
theorem findVersionUrl_eq_empty_of_no_match (versions : List VEntry) (mc : String)
    (h : ∀ e ∈ versions, e.id ≠ mc) : findVersionUrl versions mc = "" := by
  induction versions with
  | nil => rfl
  | cons e es ih =>
    have he : e.id ≠ mc := h e (by simp)
    simp only [findVersionUrl, if_neg he]
    exact ih fun e' he' => h e' (by simp [he'])

/-- C4: the manifest scan takes the `url` of the FIRST entry whose id
equals the request, and when no entry matches it leaves `url = ''`, so the
subsequent `urlopen('')` fails the run (the spec's `VersionNotFoundError`)
— no closest-version fallback ever yields another entry's url. -/
theorem c4_first_exact_match_else_not_found (versions : List VEntry) (mc : String) :
    ((∀ e ∈ versions, e.id ≠ mc) → vanillaLookup versions mc = Except.error ()) ∧
    (∀ pre e post, versions = pre ++ e :: post → e.id = mc →
      (∀ e' ∈ pre, e'.id ≠ mc) → findVersionUrl versions mc = e.url) := by
  constructor
  · intro h
    unfold vanillaLookup
    rw [findVersionUrl_eq_empty_of_no_match versions mc h]
    simp
  · intro pre e post hv he hpre
    subst hv
    induction pre with
    | nil => simp [findVersionUrl, he]
    | cons p ps ih =>
      have hp : p.id ≠ mc := hpre p (by simp)
      simp only [List.cons_append, findVersionUrl, if_neg hp]
      exact ih fun e' h' => hpre e' (by simp [h'])

/-- Concrete instances of C4: an index without the requested id fails the
lookup; with duplicate matches the scan stops at the first one. -/
theorem c4_witness :
    vanillaLookup [⟨"1.20.4", "https://x/meta.json"⟩] "9.9" = Except.error () ∧
    findVersionUrl [⟨"a", "u1"⟩, ⟨"b", "u2"⟩, ⟨"b", "u3"⟩] "b" = "u2" := by
  constructor
  · exact (c4_first_exact_match_else_not_found [⟨"1.20.4", "https://x/meta.json"⟩] "9.9").1
      (by decide)
  · exact (c4_first_exact_match_else_not_found [⟨"a", "u1"⟩, ⟨"b", "u2"⟩, ⟨"b", "u3"⟩] "b").2
      [⟨"a", "u1"⟩] ⟨"b", "u2"⟩ [⟨"b", "u3"⟩] rfl rfl (by decide)

/-- C5 counterexample: the claim's closed enumeration includes Forge and
Paper, but no dispatch code invokes a Forge or Paper acquisition strategy
— the code has only four strategies, and the `server_loader` menu rejects
`forge` and `paper` as inputs. -/
theorem c5_counterexample_no_forge_or_paper :
    (¬ ∃ (n : Int) (s : Strategy), loader_setup n = Except.ok s ∧ kindOf s = LoaderKind.forge) ∧
    (¬ ∃ (n : Int) (s : Strategy), loader_setup n = Except.ok s ∧ kindOf s = LoaderKind.paper) ∧
    serverLoaderOption "forge" = MenuResult.invalid ∧
    serverLoaderOption "paper" = MenuResult.invalid := by
  refine ⟨?_, ?_, by decide, by decide⟩ <;>
    · rintro ⟨n, s, _, hk⟩
      cases s <;> simp [kindOf] at hk

/-- C5 amended: the enumeration implemented by the code is `Vanilla,
Fabric, Quilt, Carpet112` (menu codes 1–4); dispatch is a pure function of
the code that invokes exactly that kind's strategy, and every other code
fails fatally (`sys.exit(1)`). -/
theorem c5_dispatch_pure_over_four_kinds :
    (loader_setup 1 = Except.ok Strategy.vanilla ∧
      kindOf Strategy.vanilla = LoaderKind.vanilla) ∧
    (loader_setup 2 = Except.ok Strategy.fabric ∧
      kindOf Strategy.fabric = LoaderKind.fabric) ∧
    (loader_setup 3 = Except.ok Strategy.quilt ∧
      kindOf Strategy.quilt = LoaderKind.quilt) ∧
    (loader_setup 4 = Except.ok Strategy.carpet112 ∧
      kindOf Strategy.carpet112 = LoaderKind.carpet112) ∧
    (∀ n : Int, n ≠ 1 → n ≠ 2 → n ≠ 3 → n ≠ 4 → loader_setup n = Except.error ()) := by
  refine ⟨⟨rfl, rfl⟩, ⟨rfl, rfl⟩, ⟨rfl, rfl⟩, ⟨rfl, rfl⟩, ?_⟩
  intro n h1 h2 h3 h4
  simp [loader_setup, h1, h2, h3, h4]

/-- Concrete instance of C5 (amended): code 7 is outside the enumeration
and dispatch fails fatally on it. -/
theorem c5_witness : loader_setup 7 = Except.error () :=
  c5_dispatch_pure_over_four_kinds.2.2.2.2 7 (by decide) (by decide) (by decide) (by decide)

/-- C6 counterexample: in `quilt_loader`, when the installer exits with
code 0 but `./server/server.jar` is missing, the installer invocation IS
retried — with the file missing after the first run and present after the
second, the strategy invokes the installer twice, not once. -/
theorem c6_counterexample_quilt_retries_missing_artifact :
    quiltInstallAttempts [false, true] = some 2 ∧ (2 : Nat) ≠ 1 := by
  decide

/-- C6 amended: a nonzero installer exit code is fatal (`sys.exit(1)`,
never retried), but the Quilt strategy's missing-artifact case is retried:
the install loop re-invokes the installer until
`./server/server.jar` exists, performing exactly one invocation per
missing-file observation. -/
theorem c6_fatal_subprocess_but_quilt_artifact_loop :
    (∀ rc : Int, rc ≠ 0 → subprocessOutcome rc true = Except.error ()) ∧
    (∀ (found : List Bool) (n : Nat), quiltInstallAttempts found = some n →
      1 ≤ n ∧ found.getD (n - 1) false = true ∧
      ∀ i, i < n - 1 → found.getD i true = false) := by
  constructor
  · intro rc h
    simp [subprocessOutcome, h]
  · intro found
    induction found with
    | nil => intro n h; simp [quiltInstallAttempts] at h
    | cons b bs ih =>
      intro n h
      cases b with
      | true =>
        simp [quiltInstallAttempts] at h
        subst h
        refine ⟨le_refl 1, rfl, ?_⟩
        intro i hi
        omega
      | false =>
        simp only [quiltInstallAttempts] at h
        rw [if_neg (by decide), Option.map_eq_some'] at h
        obtain ⟨m, hm, hmn⟩ := h
        obtain ⟨h1, h2, h3⟩ := ih m hm
        subst hmn
        obtain ⟨k, rfl⟩ : ∃ k, m = k + 1 := ⟨m - 1, by omega⟩
        refine ⟨by omega, ?_, ?_⟩
        · simpa using h2
        · intro i hi
          cases i with
          | zero => rfl
          | succ j =>
            have : j < k + 1 - 1 := by omega
            simpa using h3 j this

/-- Concrete instance of C6 (amended): exit code 3 is fatal, and three
installer runs happen when the artifact appears only after the third. -/
theorem c6_witness :
    subprocessOutcome 3 true = Except.error () ∧
    quiltInstallAttempts [false, false, true] = some 3 ∧
    [false, false, true].getD 2 false = true := by
  refine ⟨c6_fatal_subprocess_but_quilt_artifact_loop.1 3 (by decide), by decide, ?_⟩
  exact (c6_fatal_subprocess_but_quilt_artifact_loop.2 [false, false, true] 3 (by decide)).2.1

/-- Helper for C7: a successful patch application is `List.set` at the
patch index, which must be in range. -/
theorem applyPatch_eq_set (p : PatchSpec) (lines out : List String)
    (h : applyPatch p lines = some out) :
    out = lines.set p.idx p.newLine ∧ p.idx < lines.length := by
  unfold applyPatch at h
  split at h
  · next hlt => exact ⟨(Option.some_inj.mp h).symm, hlt⟩
  · exact absurd h (by simp)

/-- C7: for each of the four config patches (start-command,
owner-identity, console-thread toggle, EULA flag), after a successful
first application a second application of the same patch succeeds and
leaves the line list — hence the written file content — identical, and
every line other than the targeted index is exactly the original line (no
reordering, no other change). -/
theorem c7_config_patches_idempotent_and_frame (jar nick : String) (flag : Bool)
    (p : PatchSpec)
    (_hp : p ∈ [startCommandPatch jar, ownerPatch nick, consoleThreadPatch flag, eulaPatch])
    (lines out : List String) (h : applyPatch p lines = some out) :
    applyPatch p out = some out ∧
    (applyPatch p out).map writeLines = some (writeLines out) ∧
    out.length = lines.length ∧
    (∀ j, j ≠ p.idx → out[j]? = lines[j]?) := by
  obtain ⟨ho, hlt⟩ := applyPatch_eq_set p lines out h
  subst ho
  have hsecond : applyPatch p (lines.set p.idx p.newLine) =
      some (lines.set p.idx p.newLine) := by
    unfold applyPatch
    rw [if_pos (by simpa using hlt), List.set_set]
  refine ⟨hsecond, by rw [hsecond]; rfl,
    List.length_set lines p.idx p.newLine, ?_⟩
  intro j hj
  exact List.getElem?_set_ne fun hc => hj hc.symm

/-- Concrete instance of C7 at the EULA patch: the second application
reproduces the first application's content byte for byte. -/
theorem c7_witness :
    applyPatch eulaPatch ["#file\n", "#comment\n", "eula=false\n"] =
      some ["#file\n", "#comment\n", "eula=true\n"] ∧
    applyPatch eulaPatch ["#file\n", "#comment\n", "eula=true\n"] =
      some ["#file\n", "#comment\n", "eula=true\n"] := by
  refine ⟨by decide, ?_⟩
  exact (c7_config_patches_idempotent_and_frame "server" "Steve" true eulaPatch
    (by decide) ["#file\n", "#comment\n", "eula=false\n"]
    ["#file\n", "#comment\n", "eula=true\n"] (by decide)).1

/-- C8: the Fabric installer invocation contains the `-mcversion` flag
block exactly when the Minecraft version request is non-empty and the
`-loader` flag block exactly when the loader version request is non-empty
(four shapes: 5, 7, 7 and 9 arguments, distinguished by the flag at
position 4); on success the installer jar is deleted and the returned
artifact name is `fabric-server-launch`. -/
theorem c8_fabric_flags_omitted_iff_latest (minecraft fabric_version : String) :
    (fabric_loader minecraft fabric_version).args =
      ["java", "-jar", fabricInstaller, "server"] ++
      (if minecraft = "" then [] else ["-mcversion", minecraft]) ++
      (if fabric_version = "" then [] else ["-loader", fabric_version]) ++
      ["-downloadMinecraft"] ∧
    (fabric_loader minecraft fabric_version).artifact = "fabric-server-launch" ∧
    (fabric_loader minecraft fabric_version).deletedFiles = [fabricInstaller] := by
  refine ⟨?_, rfl, rfl⟩
  by_cases h1 : minecraft = "" <;> by_cases h2 : fabric_version = "" <;>
    simp [fabric_loader, fabricArgs, h1, h2]

/-- C9 counterexample: `quilt_loader`, entered in the directory
`/home/mine`, returns in `/home/server` — it does not restore the working
directory it was entered in. -/
theorem c9_counterexample_quilt_moves_dir :
    quiltDirEffect ["home", "mine"] ≠ ["home", "mine"] := by
  decide

/-- C9 amended: the Vanilla, Fabric and Carpet112 strategies restore the
working directory they were entered in; the Quilt strategy instead returns
in the `server` sibling of its starting directory, which equals the
starting directory exactly when that directory is itself named `server`
(as it is in the MCDR flow that calls it). -/
theorem c9_dir_restore_except_quilt (d : Dir) :
    vanillaDirEffect d = d ∧ fabricDirEffect d = d ∧ carpetDirEffect d = d ∧
    (quiltDirEffect d = d ↔ d.getLast? = some "server") := by
  refine ⟨rfl, rfl, ?_, ?_, ?_⟩
  · simp [carpetDirEffect, chdirInto, chdirUp]
  · intro h
    rw [← h]
    simp [quiltDirEffect, chdirInto, chdirUp, List.getLast?_concat]
  · intro h
    simpa [quiltDirEffect, chdirInto, chdirUp] using
      List.dropLast_append_getLast? "server" h

end AmsPy
